import Mathlib

/-!
# QuickImageItem (framelesshelper, `src/quick/quickimageitem.cpp`)

A shallow embedding of the image-painting item: the `source` property
(`source` / `setSource`) and the paint dispatch (`paint`, `fromUrl`,
`fromString`, `fromImage`, `fromPixmap`, `fromIcon`, `paintArea`).

Conventions of the embedding.

* Every member function returns the `Run` it performs: the ordered list of
  calls it makes on its collaborators (the painter, the logging category, the
  item's `update()` and `sourceChanged()`), and whether a failed `Q_ASSERT`
  terminated the program before the function returned.
* The two build switches the file reads are explicit: `Build.assertsEnabled`
  (`Q_ASSERT` is active, i.e. a debug build) and `Build.noDebugOutput`
  (`FRAMELESSHELPER_QUICK_NO_DEBUG_OUTPUT` is defined).
* Functions of the toolkit that the file calls but does not define
  (`QVariant::operator==`, `QSizeF::toSize`, the `QPixmap` loaders and
  `QPixmap::scaled`) are the fields of `Toolkit`; the general theorems hold
  for every choice of them, and `sampleToolkit` is one choice on which the
  definitions evaluate.
* `QString` is a list of characters.  `QString::startsWith` and
  `QString::replace` are embedded in full (all occurrences, left to right,
  no rescan of replaced text).
-/

namespace FramelessHelper

/-! ## Toolkit value types, as far as this file observes them -/

/-- A `QString`: its sequence of characters. -/
abbrev QString := List Char

/-- The two values of `Qt::CaseSensitivity`. -/
inductive CaseSensitivity where
  | CaseInsensitive
  | CaseSensitive
  deriving DecidableEq, Repr

/-- Comparison of two characters under a case sensitivity.  Case folding is
the folding of the basic Latin letters; every character of the four
constants below (`q r c : /`) is the fold of itself and of its upper-case
letter only, so on these patterns it agrees with full Unicode folding. -/
def QChar.equals (cs : CaseSensitivity) (a b : Char) : Bool :=
  match cs with
  | .CaseSensitive => a == b
  | .CaseInsensitive => a.toLower == b.toLower

/-- Function `QString::startsWith(s, cs)`: `pre` is an initial segment of `s`. -/
def QString.startsWith : QString → QString → CaseSensitivity → Bool
  | _, [], _ => true
  | [], _ :: _, _ => false
  | c :: s, p :: pre, cs => QChar.equals cs c p && QString.startsWith s pre cs

/-- Scan of `QString::replace(before, after, cs)` for a non-empty `before`:
`skip` characters of a match just replaced are still to be passed over; at
`skip = 0` a match at the current position is replaced by `after` and the
scan resumes behind the match, otherwise the character is kept. -/
def QString.replaceScan (before after : QString) (cs : CaseSensitivity) :
    Nat → QString → QString
  | _, [] => []
  | skip + 1, _ :: rest => QString.replaceScan before after cs skip rest
  | 0, c :: rest =>
    if QString.startsWith (c :: rest) before cs then
      after ++ QString.replaceScan before after cs (before.length - 1) rest
    else
      c :: QString.replaceScan before after cs 0 rest

/-- Function `QString::replace(before, after, cs)`: every occurrence of
`before` is replaced by `after`.  (An empty `before` matches at every
position, the end included; the file never passes one.) -/
def QString.replace (s before after : QString) (cs : CaseSensitivity) : QString :=
  if before = [] then after ++ s.flatMap (fun c => c :: after)
  else QString.replaceScan before after cs 0 s

/-- Function `QString::contains(pattern, cs)`: `pattern` occurs at some
position of the string. -/
def QString.contains : QString → QString → CaseSensitivity → Bool
  | [], pattern, cs => QString.startsWith [] pattern cs
  | c :: s, pattern, cs =>
    QString.startsWith (c :: s) pattern cs || QString.contains s pattern cs

/-- An integer size, `QSize`. -/
structure QSize where
  width : Int
  height : Int
  deriving DecidableEq, Repr

/-- A real size, `QSizeF`; `qreal` values are carried as rationals, the file
performs no arithmetic on them. -/
structure QSizeF where
  width : ℚ
  height : ℚ
  deriving DecidableEq

/-- A real point, `QPointF`. -/
structure QPointF where
  x : ℚ
  y : ℚ
  deriving DecidableEq

/-- A real rectangle, `QRectF`, built from its top-left corner and size. -/
structure QRectF where
  topLeft : QPointF
  size : QSizeF
  deriving DecidableEq

/-- A `QUrl`, by the four member functions the file calls on it. -/
structure QUrl where
  isValid : Bool
  isLocalFile : Bool
  toLocalFile : QString
  toString : QString
  deriving DecidableEq

/-- A `QImage`: whether it is null, and an identifier of its pixels. -/
structure QImage where
  isNull : Bool
  bits : Nat
  deriving DecidableEq

/-- A `QPixmap`: whether it is null, its size, and an identifier of its pixels. -/
structure QPixmap where
  isNull : Bool
  size : QSize
  cacheKey : Nat
  deriving DecidableEq

/-- A `QIcon`: whether it is null, and an identifier of its contents. -/
structure QIcon where
  isNull : Bool
  cacheKey : Nat
  deriving DecidableEq

/-- The value held by a `QVariant`, by run-time type tag (`userType()`):
the five tags `paint` dispatches on, no value at all, or a value of any
other type, of which only `typeName()` is read. -/
inductive QVariantData where
  | invalid
  | url (value : QUrl)
  | string (value : QString)
  | image (value : QImage)
  | pixmap (value : QPixmap)
  | icon (value : QIcon)
  | other (typeName : String)
  deriving DecidableEq

/-- A `QVariant`: the tagged value and the answer of `isNull()`.  What makes
a variant null differs between toolkit versions, so the flag is independent
of the value. -/
structure QVariant where
  data : QVariantData
  null : Bool
  deriving DecidableEq

/-- Function `QVariant::isValid()`: the variant holds a value of some type. -/
def QVariant.isValid (v : QVariant) : Bool :=
  match v.data with
  | .invalid => false
  | _ => true

/-- Function `QVariant::isNull()`. -/
def QVariant.isNull (v : QVariant) : Bool := v.null

/-- Function `QVariant::typeName()`: the name of the held type. -/
def QVariant.typeName (v : QVariant) : String :=
  match v.data with
  | .invalid => ""
  | .url _ => "QUrl"
  | .string _ => "QString"
  | .image _ => "QImage"
  | .pixmap _ => "QPixmap"
  | .icon _ => "QIcon"
  | .other typeName => typeName

/-- The values of `Qt::AspectRatioMode`. -/
inductive AspectRatioMode where
  | IgnoreAspectRatio
  | KeepAspectRatio
  | KeepAspectRatioByExpanding
  deriving DecidableEq, Repr

/-- The values of `Qt::TransformationMode`. -/
inductive TransformationMode where
  | FastTransformation
  | SmoothTransformation
  deriving DecidableEq, Repr

/-- The render hints of `QPainter` that the file names. -/
inductive RenderHint where
  | Antialiasing
  | TextAntialiasing
  | SmoothPixmapTransform
  deriving DecidableEq, Repr

/-- A `QPainter` object; a `QPainter *` argument is an `Option QPainter`,
`none` being the null pointer. -/
structure QPainter where
  device : Nat
  deriving DecidableEq

/-- The toolkit functions the file calls and does not define. -/
structure Toolkit where
  /-- Is `QVariant::operator==`. -/
  variantEquals : QVariant → QVariant → Bool
  /-- Is `QSizeF::toSize()`. -/
  toSize : QSizeF → QSize
  /-- Is the constructor `QPixmap(const QString &fileName)`. -/
  pixmapFromFile : QString → QPixmap
  /-- Is `QPixmap::fromImage`. -/
  pixmapFromImage : QImage → QPixmap
  /-- Is `QIcon::pixmap(const QSize &)`. -/
  iconPixmap : QIcon → QSize → QPixmap
  /-- Is `QPixmap::scaled(size, aspectMode, transformMode)`. -/
  scaled : QPixmap → QSize → AspectRatioMode → TransformationMode → QPixmap

/-- The compile-time switches the file depends on. -/
structure Build where
  /-- Macro `Q_ASSERT` is active (it is compiled out of release builds). -/
  assertsEnabled : Bool
  /-- Macro `FRAMELESSHELPER_QUICK_NO_DEBUG_OUTPUT` is defined. -/
  noDebugOutput : Bool
  deriving DecidableEq, Repr

/-! ## Observable calls -/

/-- A call made by the item on one of its collaborators. -/
inductive Call where
  /-- Call `painter->save()`. -/
  | save
  /-- Call `painter->setRenderHints(hints)`. -/
  | setRenderHints (hints : List RenderHint)
  /-- Call `painter->drawPixmap(pos, pixmap)`. -/
  | drawPixmap (pos : QPointF) (pixmap : QPixmap)
  /-- Call `painter->restore()`. -/
  | restore
  /-- One message streamed to `qCWarning(lcQuickImageItem)`. -/
  | warning (items : List String)
  /-- Call `update()` of the item: a repaint request. -/
  | update
  /-- Emission `Q_EMIT sourceChanged()`. -/
  | sourceChanged
  deriving DecidableEq

/-- What one call of a member function does: the calls it makes, in order,
and whether a failed `Q_ASSERT` ended the program before it returned. -/
structure Run where
  calls : List Call
  aborted : Bool
  deriving DecidableEq

/-- Returning without any call. -/
def Run.done : Run := ⟨[], false⟩

/-- A failed assertion at the start of a run. -/
def Run.abort : Run := ⟨[], true⟩

/-- One call, then return. -/
def Run.call (c : Call) : Run := ⟨[c], false⟩

/-- Sequencing: `second` runs only if `first` returned. -/
def Run.andThen (first second : Run) : Run :=
  if first.aborted then first
  else ⟨first.calls ++ second.calls, second.aborted⟩

/-- Statement `Q_ASSERT(cond)` followed by `rest`. -/
def qAssert (build : Build) (cond : Bool) (rest : Run) : Run :=
  if build.assertsEnabled && !cond then Run.abort else rest

/-- Statement `WARNING << items...`: `qCWarning(lcQuickImageItem)`, or
nothing when debug output is compiled out. -/
def WARNING (build : Build) (items : List String) : Run :=
  if build.noDebugOutput then Run.done else Run.call (.warning items)

/-! ## The item -/

/-- Constant `FRAMELESSHELPER_STRING_CONSTANT2(QrcPrefix, "qrc:")` -/
def kQrcPrefix : QString := ['q', 'r', 'c', ':']
/-- Constant `FRAMELESSHELPER_STRING_CONSTANT2(FileSystemPrefix, ":")` -/
def kFileSystemPrefix : QString := [':']
/-- Constant `FRAMELESSHELPER_STRING_CONSTANT2(UrlPrefix, ":///")` -/
def kUrlPrefix : QString := [':', '/', '/', '/']
/-- Constant `FRAMELESSHELPER_STRING_CONSTANT2(FilePathPrefix, ":/")` -/
def kFilePathPrefix : QString := [':', '/']

/-- The state of a `QuickImageItem` that the file reads or writes: the
stored `source` (of `QuickImageItemPrivate`) and the item's `size()`. -/
structure QuickImageItem where
  source : QVariant
  size : QSizeF
  deriving DecidableEq

/-- Function `QuickImageItemPrivate::paintArea` -/
def paintArea (q : QuickImageItem) : QRectF :=
  ⟨⟨0, 0⟩, q.size⟩

/-- Function `QuickImageItemPrivate::fromPixmap` -/
def fromPixmap (qt : Toolkit) (build : Build) (q : QuickImageItem)
    (value : QPixmap) (painter : Option QPainter) : Run :=
  qAssert build (!value.isNull) <|
  qAssert build painter.isSome <|
  if value.isNull || !painter.isSome then Run.done
  else
    let paintRect := paintArea q
    let paintSize := qt.toSize paintRect.size
    Run.call (.drawPixmap paintRect.topLeft
      (if value.size = paintSize then value
       else qt.scaled value paintSize .IgnoreAspectRatio .SmoothTransformation))

/-- The path computed by the lambda inside `QuickImageItemPrivate::fromString`. -/
def fromStringPath (value : QString) : QString :=
  let path := value
  let path :=
    if path.startsWith kQrcPrefix .CaseInsensitive then
      path.replace kQrcPrefix kFileSystemPrefix .CaseInsensitive
    else path
  let path :=
    if path.startsWith kUrlPrefix .CaseInsensitive then
      path.replace kUrlPrefix kFilePathPrefix .CaseInsensitive
    else path
  path

/-- Function `QuickImageItemPrivate::fromString` -/
def fromString (qt : Toolkit) (build : Build) (q : QuickImageItem)
    (value : QString) (painter : Option QPainter) : Run :=
  qAssert build (!value.isEmpty) <|
  qAssert build painter.isSome <|
  if value.isEmpty || !painter.isSome then Run.done
  else fromPixmap qt build q (qt.pixmapFromFile (fromStringPath value)) painter

/-- Function `QuickImageItemPrivate::fromUrl` -/
def fromUrl (qt : Toolkit) (build : Build) (q : QuickImageItem)
    (value : QUrl) (painter : Option QPainter) : Run :=
  qAssert build value.isValid <|
  qAssert build painter.isSome <|
  if !value.isValid || !painter.isSome then Run.done
  else
    fromString qt build q
      (if value.isLocalFile then value.toLocalFile else value.toString) painter

/-- Function `QuickImageItemPrivate::fromImage` -/
def fromImage (qt : Toolkit) (build : Build) (q : QuickImageItem)
    (value : QImage) (painter : Option QPainter) : Run :=
  qAssert build (!value.isNull) <|
  qAssert build painter.isSome <|
  if value.isNull || !painter.isSome then Run.done
  else fromPixmap qt build q (qt.pixmapFromImage value) painter

/-- Function `QuickImageItemPrivate::fromIcon` -/
def fromIcon (qt : Toolkit) (build : Build) (q : QuickImageItem)
    (value : QIcon) (painter : Option QPainter) : Run :=
  qAssert build (!value.isNull) <|
  qAssert build painter.isSome <|
  if value.isNull || !painter.isSome then Run.done
  else fromPixmap qt build q (qt.iconPixmap value (qt.toSize (paintArea q).size)) painter

/-- The hints `paint` sets: `QPainter::Antialiasing |
QPainter::TextAntialiasing | QPainter::SmoothPixmapTransform`. -/
def paintRenderHints : List RenderHint :=
  [.Antialiasing, .TextAntialiasing, .SmoothPixmapTransform]

/-- The `switch (d->source.userType())` of `QuickImageItem::paint`. -/
def paintDispatch (qt : Toolkit) (build : Build) (q : QuickImageItem)
    (painter : Option QPainter) : Run :=
  match q.source.data with
  | .url u => fromUrl qt build q u painter
  | .string s => fromString qt build q s painter
  | .image i => fromImage qt build q i painter
  | .pixmap p => fromPixmap qt build q p painter
  | .icon i => fromIcon qt build q i painter
  | _ => WARNING build ["Unsupported type:", q.source.typeName]

/-- Function `QuickImageItem::paint` -/
def paint (qt : Toolkit) (build : Build) (q : QuickImageItem)
    (painter : Option QPainter) : Run :=
  qAssert build painter.isSome <|
  if !painter.isSome then Run.done
  else if !q.source.isValid || q.source.isNull then Run.done
  else
    (Run.call .save).andThen <|
    (Run.call (.setRenderHints paintRenderHints)).andThen <|
    (paintDispatch qt build q painter).andThen <|
    Run.call .restore

/-- Function `QuickImageItem::source` -/
def source (q : QuickImageItem) : QVariant := q.source

/-- Function `QuickImageItem::setSource`: the item after the call and the run. -/
def setSource (qt : Toolkit) (build : Build) (q : QuickImageItem)
    (value : QVariant) : QuickImageItem × Run :=
  if build.assertsEnabled && !value.isValid then (q, Run.abort)
  else if build.assertsEnabled && value.isNull then (q, Run.abort)
  else if !value.isValid || value.isNull then (q, Run.done)
  else if qt.variantEquals q.source value then (q, Run.done)
  else ({ q with source := value }, ⟨[.update, .sourceChanged], false⟩)

/-! ## Reading a run -/

/-- The calls of a run that are made on the painter. -/
def Call.onPainter : Call → Bool
  | .save | .setRenderHints _ | .drawPixmap _ _ | .restore => true
  | _ => false

/-- The calls of a run that draw. -/
def Call.isDraw : Call → Bool
  | .drawPixmap _ _ => true
  | _ => false

/-- The calls of a run that log a warning. -/
def Call.isWarning : Call → Bool
  | .warning _ => true
  | _ => false

/-- The painter operations of a run, in order. -/
def Run.painterCalls (r : Run) : List Call := r.calls.filter Call.onPainter

/-- The number of draw calls of a run. -/
def Run.drawCount (r : Run) : Nat := (r.calls.filter Call.isDraw).length

/-- The number of warning lines of a run. -/
def Run.warningCount (r : Run) : Nat := (r.calls.filter Call.isWarning).length

/-- The number of `sourceChanged` notifications among some calls. -/
def notifications (calls : List Call) : Nat := calls.count .sourceChanged

/-- The number of repaint requests among some calls. -/
def repaints (calls : List Call) : Nat := calls.count .update

/-- A helper that turns its value away: the assertion stops the program when
`Q_ASSERT` is active, the helper returns at once when it is not. -/
def rejectedRun (build : Build) : Run :=
  if build.assertsEnabled then Run.abort else Run.done

/-- A run that ends in one of the three ways of `fromPixmap`. -/
def Run.isHelperRun (build : Build) (r : Run) : Prop :=
  (build.assertsEnabled = true ∧ r = Run.abort) ∨
  (build.assertsEnabled = false ∧ r = Run.done) ∨
  (∃ pm, r = Run.call (.drawPixmap ⟨0, 0⟩ pm))

/-- A path that `fromString` turns away or that loads as a null pixmap. -/
def pathIsRejected (qt : Toolkit) (path : QString) : Bool :=
  path.isEmpty || (qt.pixmapFromFile (fromStringPath path)).isNull

/-- The stored source holds one of the five supported types and its value is
empty or null at some stage of `paint`: an invalid URL, an empty path, a
path whose pixmap is null after loading, a null image or one whose pixmap
is null, a null pixmap, a null icon or one whose pixmap is null. -/
def emptyAtSomeStage (qt : Toolkit) (q : QuickImageItem) : Bool :=
  match q.source.data with
  | .url u =>
    !u.isValid || pathIsRejected qt (if u.isLocalFile then u.toLocalFile else u.toString)
  | .string s => pathIsRejected qt s
  | .image i => i.isNull || (qt.pixmapFromImage i).isNull
  | .pixmap p => p.isNull
  | .icon i => i.isNull || (qt.iconPixmap i (qt.toSize (paintArea q).size)).isNull
  | _ => false

/-- The path after the first `if` of the lambda inside `fromString`: the
`qrc:` replacement alone. -/
def fromStringPathQrc (value : QString) : QString :=
  if value.startsWith kQrcPrefix .CaseInsensitive then
    value.replace kQrcPrefix kFileSystemPrefix .CaseInsensitive
  else value

/-- The `QStringLiteral` of a string. -/
def QStringLiteral (s : String) : QString := s.toList

/-- A toolkit on which the definitions can be evaluated: variants compare by
value, real sizes round to the nearest integer, a file loads (as a 16 x 16
pixmap) exactly when its path starts with `:/`, and conversions keep
nullness and identity. -/
def sampleToolkit : Toolkit where
  variantEquals a b := decide (a = b)
  toSize s :=
    ⟨(2 * s.width.num + s.width.den) / (2 * s.width.den),
     (2 * s.height.num + s.height.den) / (2 * s.height.den)⟩
  pixmapFromFile path :=
    if path.startsWith kFilePathPrefix .CaseSensitive then ⟨false, ⟨16, 16⟩, path.length⟩
    else ⟨true, ⟨0, 0⟩, 0⟩
  pixmapFromImage i := ⟨i.isNull, ⟨16, 16⟩, i.bits⟩
  iconPixmap i size := ⟨i.isNull, size, i.cacheKey⟩
  scaled p size _ _ := ⟨p.isNull, size, p.cacheKey + 1⟩

/-- The sample toolkit with the comparison of a toolkit whose `QIcon` and
`QPixmap` have no equality operator: two variants that hold an icon or a
pixmap never compare equal, not even a variant with itself; all other
variants compare by value. -/
def iconsNeverEqualToolkit : Toolkit :=
  { sampleToolkit with
    variantEquals := fun a b =>
      match a.data with
      | .icon _ => false
      | .pixmap _ => false
      | _ => decide (a = b) }

/-- A release build with debug output: `Q_ASSERT` compiled out. -/
def releaseBuild : Build := ⟨false, false⟩

/-- A debug build with debug output: `Q_ASSERT` active. -/
def debugBuild : Build := ⟨true, false⟩

/-! ## The `source` property -/

/-- C1: for every item state and every value that is invalid or null,
`setSource(value)` leaves the item (hence what `source()` returns) exactly as
it was and makes no call at all: no repaint request, no `sourceChanged`.  It
returns normally when `Q_ASSERT` is compiled out; with `Q_ASSERT` active the
assertion on the value stops the program at that point. -/
theorem setSource_invalid_or_null_is_rejected (qt : Toolkit) (build : Build)
    (q : QuickImageItem) (value : QVariant)
    (h : value.isValid = false ∨ value.isNull = true) :
    source (setSource qt build q value).1 = source q ∧
    (setSource qt build q value).1 = q ∧
    (setSource qt build q value).2.calls = [] ∧
    repaints (setSource qt build q value).2.calls = 0 ∧
    notifications (setSource qt build q value).2.calls = 0 ∧
    (setSource qt build q value).2.aborted = build.assertsEnabled := by
  unfold setSource
  rcases h with h | h <;> cases hb : build.assertsEnabled <;>
    cases hv : value.isValid <;> cases hn : value.isNull <;>
    simp_all [Run.done, Run.abort, repaints, notifications]

/-- Witness of C1 on an invalid variant and an item holding a string. -/
theorem setSource_invalid_or_null_is_rejected_witness :
    source (setSource sampleToolkit releaseBuild
      ⟨⟨.string (QStringLiteral ":/a.png"), false⟩, ⟨16, 16⟩⟩ ⟨.invalid, true⟩).1
      = ⟨.string (QStringLiteral ":/a.png"), false⟩ :=
  (setSource_invalid_or_null_is_rejected sampleToolkit releaseBuild
    ⟨⟨.string (QStringLiteral ":/a.png"), false⟩, ⟨16, 16⟩⟩ ⟨.invalid, true⟩
    (Or.inl rfl)).1

/-- C2, amended: for every item state and every valid, non-null value that
compares equal to the stored source, `setSource(value)` makes no call (no
`sourceChanged`, no repaint request), leaves the item unchanged and returns
normally.  For every value that compares equal to itself, two calls
`setSource(v)` in a row emit at most one `sourceChanged` in total: the
second call finds `v` stored and compares it with `v`.  The comparison is
`QVariant::operator==` of the toolkit, here any function at all. -/
theorem setSource_equal_value_is_noop (qt : Toolkit) (build : Build) :
    (∀ (q : QuickImageItem) (value : QVariant),
      value.isValid = true → value.isNull = false →
      qt.variantEquals q.source value = true →
        setSource qt build q value = (q, ⟨[], false⟩)) ∧
    (∀ (q : QuickImageItem) (v : QVariant), qt.variantEquals v v = true →
      notifications ((setSource qt build q v).2.calls ++
        (setSource qt build (setSource qt build q v).1 v).2.calls) ≤ 1) := by
  constructor
  · intro q value hv hn he
    simp [setSource, hv, hn, he, Run.done]
  · intro q v hrefl
    unfold setSource
    cases hb : build.assertsEnabled <;> cases hv : v.isValid <;>
      cases hn : v.isNull <;> cases he : qt.variantEquals q.source v <;>
      simp_all [Run.done, Run.abort, notifications]

/-- Witness of C2: the stored pixmap is set again, and a new icon is set
twice in a row. -/
theorem setSource_equal_value_is_noop_witness :
    setSource sampleToolkit debugBuild
      ⟨⟨.pixmap ⟨false, ⟨16, 16⟩, 7⟩, false⟩, ⟨16, 16⟩⟩
      ⟨.pixmap ⟨false, ⟨16, 16⟩, 7⟩, false⟩
      = (⟨⟨.pixmap ⟨false, ⟨16, 16⟩, 7⟩, false⟩, ⟨16, 16⟩⟩, ⟨[], false⟩) ∧
    notifications
      ((setSource sampleToolkit debugBuild ⟨⟨.invalid, true⟩, ⟨16, 16⟩⟩
          ⟨.icon ⟨false, 3⟩, false⟩).2.calls ++
        (setSource sampleToolkit debugBuild
          (setSource sampleToolkit debugBuild ⟨⟨.invalid, true⟩, ⟨16, 16⟩⟩
            ⟨.icon ⟨false, 3⟩, false⟩).1
          ⟨.icon ⟨false, 3⟩, false⟩).2.calls) ≤ 1 :=
  ⟨(setSource_equal_value_is_noop sampleToolkit debugBuild).1
    ⟨⟨.pixmap ⟨false, ⟨16, 16⟩, 7⟩, false⟩, ⟨16, 16⟩⟩
    ⟨.pixmap ⟨false, ⟨16, 16⟩, 7⟩, false⟩ rfl rfl (by simp [sampleToolkit]),
   (setSource_equal_value_is_noop sampleToolkit debugBuild).2
    ⟨⟨.invalid, true⟩, ⟨16, 16⟩⟩ ⟨.icon ⟨false, 3⟩, false⟩ (by simp [sampleToolkit])⟩

/-- C2, counterexample: under a comparison in which an icon variant does not
compare equal to itself, setting the same valid, non-null icon twice in a
row stores it twice and emits `sourceChanged` twice. -/
theorem setSource_twice_notifies_twice_without_reflexive_equality :
    QVariant.isValid ⟨.icon ⟨false, 3⟩, false⟩ = true ∧
    QVariant.isNull ⟨.icon ⟨false, 3⟩, false⟩ = false ∧
    iconsNeverEqualToolkit.variantEquals
      ⟨.icon ⟨false, 3⟩, false⟩ ⟨.icon ⟨false, 3⟩, false⟩ = false ∧
    (setSource iconsNeverEqualToolkit releaseBuild ⟨⟨.invalid, true⟩, ⟨16, 16⟩⟩
      ⟨.icon ⟨false, 3⟩, false⟩).2.calls = [.update, .sourceChanged] ∧
    (setSource iconsNeverEqualToolkit releaseBuild
      (setSource iconsNeverEqualToolkit releaseBuild ⟨⟨.invalid, true⟩, ⟨16, 16⟩⟩
        ⟨.icon ⟨false, 3⟩, false⟩).1
      ⟨.icon ⟨false, 3⟩, false⟩).2.calls = [.update, .sourceChanged] ∧
    notifications
      ((setSource iconsNeverEqualToolkit releaseBuild ⟨⟨.invalid, true⟩, ⟨16, 16⟩⟩
          ⟨.icon ⟨false, 3⟩, false⟩).2.calls ++
        (setSource iconsNeverEqualToolkit releaseBuild
          (setSource iconsNeverEqualToolkit releaseBuild ⟨⟨.invalid, true⟩, ⟨16, 16⟩⟩
            ⟨.icon ⟨false, 3⟩, false⟩).1
          ⟨.icon ⟨false, 3⟩, false⟩).2.calls) = 2 := by
  decide

/-- C3: for every item state and every value that is valid, non-null and not
equal to the stored source, after `setSource(value)` the accessor `source()`
returns `value`, and the call makes exactly two calls, in this order: one
repaint request (`update()`), then one `sourceChanged` emission; it returns
normally and leaves the size of the item alone. -/
theorem setSource_new_value_is_stored (qt : Toolkit) (build : Build)
    (q : QuickImageItem) (value : QVariant)
    (hv : value.isValid = true) (hn : value.isNull = false)
    (hne : qt.variantEquals q.source value = false) :
    source (setSource qt build q value).1 = value ∧
    (setSource qt build q value).1.size = q.size ∧
    (setSource qt build q value).2.calls = [.update, .sourceChanged] ∧
    repaints (setSource qt build q value).2.calls = 1 ∧
    notifications (setSource qt build q value).2.calls = 1 ∧
    (setSource qt build q value).2.aborted = false := by
  simp [setSource, hv, hn, hne, source, repaints, notifications]

/-- Witness of C3: a string source replaces the initial invalid one. -/
theorem setSource_new_value_is_stored_witness :
    source (setSource sampleToolkit debugBuild ⟨⟨.invalid, true⟩, ⟨16, 16⟩⟩
      ⟨.string (QStringLiteral "qrc:/a.png"), false⟩).1
      = ⟨.string (QStringLiteral "qrc:/a.png"), false⟩ :=
  (setSource_new_value_is_stored sampleToolkit debugBuild ⟨⟨.invalid, true⟩, ⟨16, 16⟩⟩
    ⟨.string (QStringLiteral "qrc:/a.png"), false⟩ rfl rfl
    (by simp [sampleToolkit])).1

/-! ## Painting -/

/-- The three ways a run of `fromPixmap` can end, for a non-null painter. -/
theorem fromPixmap_cases (qt : Toolkit) (build : Build) (q : QuickImageItem)
    (value : QPixmap) (p : QPainter) :
    (value.isNull = true ∧ build.assertsEnabled = true ∧
      fromPixmap qt build q value (some p) = Run.abort) ∨
    (value.isNull = true ∧ build.assertsEnabled = false ∧
      fromPixmap qt build q value (some p) = Run.done) ∨
    (value.isNull = false ∧ ∃ pm,
      fromPixmap qt build q value (some p) = Run.call (.drawPixmap ⟨0, 0⟩ pm)) := by
  unfold fromPixmap qAssert paintArea
  cases hb : build.assertsEnabled <;> cases hn : value.isNull <;> simp <;>
    exact ⟨_, rfl⟩

/-- With a non-null painter `fromPixmap` stops at an assertion, returns at once,
or draws one pixmap at the origin. -/
theorem fromPixmap_isHelperRun (qt : Toolkit) (build : Build) (q : QuickImageItem)
    (value : QPixmap) (p : QPainter) :
    (fromPixmap qt build q value (some p)).isHelperRun build := by
  rcases fromPixmap_cases qt build q value p with h | h | h
  · exact Or.inl ⟨h.2.1, h.2.2⟩
  · exact Or.inr (Or.inl ⟨h.2.1, h.2.2⟩)
  · exact Or.inr (Or.inr h.2)

/-- With a non-null painter `fromString` ends in one of the ways of `fromPixmap`. -/
theorem fromString_isHelperRun (qt : Toolkit) (build : Build) (q : QuickImageItem)
    (value : QString) (p : QPainter) :
    (fromString qt build q value (some p)).isHelperRun build := by
  unfold fromString qAssert
  cases hb : build.assertsEnabled <;> cases he : value.isEmpty <;>
    simp [Run.isHelperRun, hb] <;>
    simpa [Run.isHelperRun, hb] using fromPixmap_isHelperRun qt build q _ p

/-- With a non-null painter `fromUrl` ends in one of the ways of `fromPixmap`. -/
theorem fromUrl_isHelperRun (qt : Toolkit) (build : Build) (q : QuickImageItem)
    (value : QUrl) (p : QPainter) :
    (fromUrl qt build q value (some p)).isHelperRun build := by
  unfold fromUrl qAssert
  cases hb : build.assertsEnabled <;> cases he : value.isValid <;>
    simp [Run.isHelperRun, hb] <;>
    simpa [Run.isHelperRun, hb] using fromString_isHelperRun qt build q _ p

/-- With a non-null painter `fromImage` ends in one of the ways of `fromPixmap`. -/
theorem fromImage_isHelperRun (qt : Toolkit) (build : Build) (q : QuickImageItem)
    (value : QImage) (p : QPainter) :
    (fromImage qt build q value (some p)).isHelperRun build := by
  unfold fromImage qAssert
  cases hb : build.assertsEnabled <;> cases he : value.isNull <;>
    simp [Run.isHelperRun, hb] <;>
    simpa [Run.isHelperRun, hb] using fromPixmap_isHelperRun qt build q _ p

/-- With a non-null painter `fromIcon` ends in one of the ways of `fromPixmap`. -/
theorem fromIcon_isHelperRun (qt : Toolkit) (build : Build) (q : QuickImageItem)
    (value : QIcon) (p : QPainter) :
    (fromIcon qt build q value (some p)).isHelperRun build := by
  unfold fromIcon qAssert
  cases hb : build.assertsEnabled <;> cases he : value.isNull <;>
    simp [Run.isHelperRun, hb] <;>
    simpa [Run.isHelperRun, hb] using fromPixmap_isHelperRun qt build q _ p

/-- The run of `paint` once the painter and the stored source passed its guards. -/
theorem paint_of_valid (qt : Toolkit) (build : Build) (q : QuickImageItem)
    (p : QPainter) (hv : q.source.isValid = true) (hn : q.source.isNull = false) :
    paint qt build q (some p) =
      (Run.call .save).andThen
        ((Run.call (.setRenderHints paintRenderHints)).andThen
          ((paintDispatch qt build q (some p)).andThen (Run.call .restore))) := by
  simp [paint, qAssert, hv, hn]

/-- The run of `paint` when a guard of `paint` itself turns the source away. -/
theorem paint_of_invalid (qt : Toolkit) (build : Build) (q : QuickImageItem)
    (painter : Option QPainter)
    (h : q.source.isValid = false ∨ q.source.isNull = true) :
    (paint qt build q painter).calls = [] ∧
    (painter.isSome = true → paint qt build q painter = Run.done) := by
  unfold paint qAssert
  rcases h with h | h <;> cases hb : build.assertsEnabled <;>
    cases hp : painter.isSome <;> simp [h, Run.done, Run.abort]

/-- The dispatch runs one helper or logs the unsupported type. -/
theorem paintDispatch_cases (qt : Toolkit) (build : Build) (q : QuickImageItem)
    (p : QPainter) :
    (paintDispatch qt build q (some p)).isHelperRun build ∨
    paintDispatch qt build q (some p) =
      WARNING build ["Unsupported type:", q.source.typeName] := by
  unfold paintDispatch
  split
  · exact Or.inl (fromUrl_isHelperRun qt build q _ p)
  · exact Or.inl (fromString_isHelperRun qt build q _ p)
  · exact Or.inl (fromImage_isHelperRun qt build q _ p)
  · exact Or.inl (fromPixmap_isHelperRun qt build q _ p)
  · exact Or.inl (fromIcon_isHelperRun qt build q _ p)
  · exact Or.inr rfl

/-- The five runs `paint` can perform with a non-null painter. -/
theorem paint_cases (qt : Toolkit) (build : Build) (q : QuickImageItem)
    (p : QPainter) :
    paint qt build q (some p) = ⟨[], false⟩ ∨
    (build.assertsEnabled = true ∧ paint qt build q (some p) =
      ⟨[.save, .setRenderHints paintRenderHints], true⟩) ∨
    paint qt build q (some p) =
      ⟨[.save, .setRenderHints paintRenderHints, .restore], false⟩ ∨
    (∃ pm, paint qt build q (some p) =
      ⟨[.save, .setRenderHints paintRenderHints, .drawPixmap ⟨0, 0⟩ pm, .restore],
        false⟩) ∨
    (∃ items, paint qt build q (some p) =
      ⟨[.save, .setRenderHints paintRenderHints, .warning items, .restore],
        false⟩) := by
  cases hv : q.source.isValid
  · exact Or.inl ((paint_of_invalid qt build q (some p) (Or.inl hv)).2 rfl)
  cases hn : q.source.isNull
  swap
  · exact Or.inl ((paint_of_invalid qt build q (some p) (Or.inr hn)).2 rfl)
  rw [paint_of_valid qt build q p hv hn]
  rcases paintDispatch_cases qt build q p with h | h
  · rcases h with ⟨hb, h⟩ | ⟨_, h⟩ | ⟨pm, h⟩
    · exact Or.inr (Or.inl ⟨hb, by simp [h, Run.andThen, Run.call, Run.abort]⟩)
    · exact Or.inr (Or.inr (Or.inl (by simp [h, Run.andThen, Run.call, Run.done])))
    · exact Or.inr (Or.inr (Or.inr (Or.inl ⟨pm, by simp [h, Run.andThen, Run.call]⟩)))
  · cases hd : build.noDebugOutput
    · exact Or.inr (Or.inr (Or.inr (Or.inr
        ⟨["Unsupported type:", q.source.typeName],
          by simp [h, hd, WARNING, Run.andThen, Run.call]⟩)))
    · exact Or.inr (Or.inr (Or.inl
        (by simp [h, hd, WARNING, Run.andThen, Run.call, Run.done])))

/-- C10, amended: for every stored source and every non-null painter, if
`paint` returns, its painter operations are either none at all or `save`
first, then `setRenderHints`, then at most one `drawPixmap`, then `restore`
last, so saves and restores are balanced (each 0 or 1) and everything else
lies between them; `paint` always returns when `Q_ASSERT` is compiled out.
When an active `Q_ASSERT` of a helper fails, the operations issued are
`save` and `setRenderHints` only.  In every case at most one `drawPixmap` is
issued. -/
theorem paint_painter_calls_balanced (qt : Toolkit) (build : Build)
    (q : QuickImageItem) (p : QPainter) :
    (build.assertsEnabled = false → (paint qt build q (some p)).aborted = false) ∧
    ((paint qt build q (some p)).aborted = false →
      (paint qt build q (some p)).painterCalls = [] ∨
      ∃ draws : List Call, draws.length ≤ 1 ∧ (∀ c ∈ draws, c.isDraw = true) ∧
        (paint qt build q (some p)).painterCalls =
          .save :: .setRenderHints paintRenderHints :: (draws ++ [.restore])) ∧
    ((paint qt build q (some p)).aborted = true →
      (paint qt build q (some p)).painterCalls =
        [.save, .setRenderHints paintRenderHints]) ∧
    (paint qt build q (some p)).drawCount ≤ 1 ∧
    (paint qt build q (some p)).painterCalls.count .save ≤ 1 ∧
    ((paint qt build q (some p)).aborted = false →
      (paint qt build q (some p)).painterCalls.count .save =
        (paint qt build q (some p)).painterCalls.count .restore) := by
  rcases paint_cases qt build q p with h | ⟨hb, h⟩ | h | ⟨pm, h⟩ | ⟨items, h⟩
  · simp [h, Run.painterCalls, Run.drawCount]
  · simp [h, hb, Run.painterCalls, Run.drawCount, Call.onPainter, Call.isDraw]
  · refine ⟨by simp [h], fun _ => Or.inr ⟨[], ?_⟩, by simp [h], ?_, ?_, ?_⟩ <;>
      simp [h, Run.painterCalls, Run.drawCount, Call.onPainter, Call.isDraw]
  · refine ⟨by simp [h], fun _ => Or.inr ⟨[.drawPixmap ⟨0, 0⟩ pm], ?_⟩, by simp [h],
      ?_, ?_, ?_⟩ <;>
      simp [h, Run.painterCalls, Run.drawCount, Call.onPainter, Call.isDraw]
  · refine ⟨by simp [h], fun _ => Or.inr ⟨[], ?_⟩, by simp [h], ?_, ?_, ?_⟩ <;>
      simp [h, Run.painterCalls, Run.drawCount, Call.onPainter, Call.isDraw]

/-- C10, counterexample: in a build with `Q_ASSERT` active, painting the
path string `nofile.png`, which does not load, issues `save` and
`setRenderHints` and then stops at the assertion of `fromPixmap` on the null
pixmap: one save, no restore. -/
theorem paint_painter_calls_unbalanced_on_assert :
    (paint sampleToolkit debugBuild
      ⟨⟨.string (QStringLiteral "nofile.png"), false⟩, ⟨16, 16⟩⟩ (some ⟨0⟩)) =
      ⟨[.save, .setRenderHints paintRenderHints], true⟩ ∧
    (paint sampleToolkit debugBuild
      ⟨⟨.string (QStringLiteral "nofile.png"), false⟩, ⟨16, 16⟩⟩
      (some ⟨0⟩)).painterCalls.count .save = 1 ∧
    (paint sampleToolkit debugBuild
      ⟨⟨.string (QStringLiteral "nofile.png"), false⟩, ⟨16, 16⟩⟩
      (some ⟨0⟩)).painterCalls.count .restore = 0 := by
  decide

/-- C5, amended: for every valid, non-null stored source whose type tag is
none of URL, string, image, pixmap or icon, `paint` with a non-null painter
issues `save`, `setRenderHints` and `restore` and no draw call, and returns
normally; it logs exactly one warning, made of the text `Unsupported type:`
and the name of the type, when the build has debug output, and logs nothing
when the build defines `FRAMELESSHELPER_QUICK_NO_DEBUG_OUTPUT`. -/
theorem paint_unsupported_type (qt : Toolkit) (build : Build)
    (typeName : String) (size : QSizeF) (p : QPainter) :
    (paint qt build ⟨⟨.other typeName, false⟩, size⟩ (some p)).painterCalls =
      [.save, .setRenderHints paintRenderHints, .restore] ∧
    (paint qt build ⟨⟨.other typeName, false⟩, size⟩ (some p)).drawCount = 0 ∧
    (paint qt build ⟨⟨.other typeName, false⟩, size⟩ (some p)).aborted = false ∧
    (build.noDebugOutput = false →
      paint qt build ⟨⟨.other typeName, false⟩, size⟩ (some p) =
        ⟨[.save, .setRenderHints paintRenderHints,
          .warning ["Unsupported type:", typeName], .restore], false⟩ ∧
      (paint qt build ⟨⟨.other typeName, false⟩, size⟩ (some p)).warningCount = 1) ∧
    (build.noDebugOutput = true →
      paint qt build ⟨⟨.other typeName, false⟩, size⟩ (some p) =
        ⟨[.save, .setRenderHints paintRenderHints, .restore], false⟩ ∧
      (paint qt build ⟨⟨.other typeName, false⟩, size⟩ (some p)).warningCount = 0) := by
  cases hb : build.assertsEnabled <;> cases hd : build.noDebugOutput <;>
    simp [paint, paintDispatch, qAssert, WARNING, QVariant.isValid, QVariant.isNull,
      QVariant.typeName, Run.andThen, Run.call, Run.done, Run.painterCalls,
      Run.drawCount, Run.warningCount, Call.onPainter, Call.isDraw, Call.isWarning,
      hb, hd]

/-- C5, counterexample: in a build that defines
`FRAMELESSHELPER_QUICK_NO_DEBUG_OUTPUT`, painting a valid, non-null `QColor`
variant logs no warning line at all. -/
theorem paint_unsupported_type_logs_nothing_without_debug_output :
    QVariant.isValid ⟨.other "QColor", false⟩ = true ∧
    QVariant.isNull ⟨.other "QColor", false⟩ = false ∧
    (paint sampleToolkit ⟨false, true⟩
      ⟨⟨.other "QColor", false⟩, ⟨16, 16⟩⟩ (some ⟨0⟩)).warningCount = 0 ∧
    (paint sampleToolkit ⟨false, true⟩
      ⟨⟨.other "QColor", false⟩, ⟨16, 16⟩⟩ (some ⟨0⟩)).calls =
      [.save, .setRenderHints paintRenderHints, .restore] := by
  decide

/-- C6: for every non-null pixmap and every paint area, `fromPixmap` makes
exactly one call on the painter it is given, a `drawPixmap` at the origin
`(0, 0)` of the paint area, and returns normally.  When the size of the
pixmap equals the paint-area size converted to integers, the pixmap drawn
is the given pixmap itself; otherwise it is the result of `scaled` on the
given pixmap with that integer paint-area size as the target size, ignoring
the aspect ratio and with smooth transformation.  So the pixmap drawn has
exactly the paint-area size whenever `scaled` returns the size it was asked
for. -/
theorem fromPixmap_draws_once (qt : Toolkit) (build : Build) (q : QuickImageItem)
    (value : QPixmap) (p : QPainter) (h : value.isNull = false) :
    (paintArea q).topLeft = ⟨0, 0⟩ ∧ (paintArea q).size = q.size ∧
    (fromPixmap qt build q value (some p)).aborted = false ∧
    (fromPixmap qt build q value (some p)).drawCount = 1 ∧
    (value.size = qt.toSize (paintArea q).size →
      (fromPixmap qt build q value (some p)).calls = [.drawPixmap ⟨0, 0⟩ value]) ∧
    (value.size ≠ qt.toSize (paintArea q).size →
      (fromPixmap qt build q value (some p)).calls =
        [.drawPixmap ⟨0, 0⟩ (qt.scaled value (qt.toSize (paintArea q).size)
          .IgnoreAspectRatio .SmoothTransformation)]) ∧
    ((qt.scaled value (qt.toSize (paintArea q).size)
        .IgnoreAspectRatio .SmoothTransformation).size = qt.toSize (paintArea q).size →
      ∃ drawn : QPixmap,
        (fromPixmap qt build q value (some p)).calls = [.drawPixmap ⟨0, 0⟩ drawn] ∧
        drawn.size = qt.toSize (paintArea q).size) := by
  refine ⟨rfl, rfl, ?_, ?_, ?_, ?_, ?_⟩
  · simp [fromPixmap, qAssert, h, Run.call]
  · simp [fromPixmap, qAssert, h, Run.call, Run.drawCount, Call.isDraw]
  · intro hs
    have hs' : value.size = qt.toSize q.size := hs
    simp [fromPixmap, qAssert, h, Run.call, hs', paintArea]
  · intro hs
    have hs' : ¬ value.size = qt.toSize q.size := hs
    simp [fromPixmap, qAssert, h, Run.call, hs', paintArea]
  · intro hsc
    by_cases hs : value.size = qt.toSize q.size
    · exact ⟨value, by simp [fromPixmap, qAssert, h, Run.call, hs, paintArea], hs⟩
    · exact ⟨_, by simp [fromPixmap, qAssert, h, Run.call, hs, paintArea], hsc⟩

/-- Witness of C6: a 32 x 32 pixmap drawn into a 16 x 16 item is rescaled
to 16 x 16 and drawn once at the origin. -/
theorem fromPixmap_draws_once_witness :
    (fromPixmap sampleToolkit debugBuild ⟨⟨.invalid, true⟩, ⟨16, 16⟩⟩
      ⟨false, ⟨32, 32⟩, 7⟩ (some ⟨0⟩)).calls =
      [.drawPixmap ⟨0, 0⟩ ⟨false, ⟨16, 16⟩, 8⟩] :=
  (fromPixmap_draws_once sampleToolkit debugBuild ⟨⟨.invalid, true⟩, ⟨16, 16⟩⟩
    ⟨false, ⟨32, 32⟩, 7⟩ ⟨0⟩ rfl).2.2.2.2.2.1 (by decide)

/-- C7: for every valid URL and non-null painter, `fromUrl` performs exactly
the run of `fromString` on the local file path of the URL when it is a
local-file URL and on its full string form otherwise; painting a URL source
is the same run as painting that string as a source, and when the string is
not empty both are `fromPixmap` on the pixmap loaded from the rewritten
path. -/
theorem fromUrl_is_fromString (qt : Toolkit) (build : Build) (q : QuickImageItem)
    (u : QUrl) (p : QPainter) (h : u.isValid = true) :
    fromUrl qt build q u (some p) =
      fromString qt build q
        (if u.isLocalFile then u.toLocalFile else u.toString) (some p) ∧
    (∀ null : Bool, paint qt build ⟨⟨.url u, null⟩, q.size⟩ (some p) =
      paint qt build
        ⟨⟨.string (if u.isLocalFile then u.toLocalFile else u.toString), null⟩, q.size⟩
        (some p)) ∧
    ((if u.isLocalFile then u.toLocalFile else u.toString) ≠ [] →
      fromUrl qt build q u (some p) =
        fromPixmap qt build q
          (qt.pixmapFromFile
            (fromStringPath (if u.isLocalFile then u.toLocalFile else u.toString)))
          (some p)) := by
  have key : ∀ q : QuickImageItem, fromUrl qt build q u (some p) =
      fromString qt build q
        (if u.isLocalFile then u.toLocalFile else u.toString) (some p) := by
    intro q
    simp [fromUrl, qAssert, h]
  refine ⟨key q, ?_, ?_⟩
  · intro null
    cases null
    · simp only [paint, paintDispatch, QVariant.isValid, QVariant.isNull, key]
      rfl
    · simp [paint, QVariant.isValid, QVariant.isNull]
  · intro hne
    rw [key q]
    cases hs : (if u.isLocalFile then u.toLocalFile else u.toString) with
    | nil => exact absurd hs hne
    | cons c cs => simp [fromString, qAssert]

/-- Witness of C7: a local-file URL is painted as its local path. -/
theorem fromUrl_is_fromString_witness :
    fromUrl sampleToolkit debugBuild ⟨⟨.invalid, true⟩, ⟨16, 16⟩⟩
      ⟨true, true, QStringLiteral "/tmp/a.png", QStringLiteral "file:///tmp/a.png"⟩
      (some ⟨0⟩) =
    fromString sampleToolkit debugBuild ⟨⟨.invalid, true⟩, ⟨16, 16⟩⟩
      (QStringLiteral "/tmp/a.png") (some ⟨0⟩) :=
  (fromUrl_is_fromString sampleToolkit debugBuild ⟨⟨.invalid, true⟩, ⟨16, 16⟩⟩
    ⟨true, true, QStringLiteral "/tmp/a.png", QStringLiteral "file:///tmp/a.png"⟩
    ⟨0⟩ rfl).1

/-- A null pixmap is turned away by `fromPixmap`. -/
theorem fromPixmap_of_null (qt : Toolkit) (build : Build) (q : QuickImageItem)
    (value : QPixmap) (p : QPainter) (h : value.isNull = true) :
    fromPixmap qt build q value (some p) = rejectedRun build := by
  cases hb : build.assertsEnabled <;> simp [fromPixmap, qAssert, rejectedRun, h, hb]

/-- An empty path, or one whose pixmap is null, is turned away by `fromString`
or by the `fromPixmap` it calls. -/
theorem fromString_of_rejected (qt : Toolkit) (build : Build) (q : QuickImageItem)
    (value : QString) (p : QPainter) (h : pathIsRejected qt value = true) :
    fromString qt build q value (some p) = rejectedRun build := by
  cases he : value.isEmpty
  · have hn : (qt.pixmapFromFile (fromStringPath value)).isNull = true := by
      simpa [pathIsRejected, he] using h
    have := fromPixmap_of_null qt build q _ p hn
    cases hb : build.assertsEnabled <;> simp_all [fromString, qAssert]
  · cases hb : build.assertsEnabled <;> simp [fromString, qAssert, rejectedRun, he, hb]

/-- A value that is empty or null at some stage is turned away by the helper
the dispatch selects, or by one that helper calls. -/
theorem paintDispatch_of_empty (qt : Toolkit) (build : Build) (q : QuickImageItem)
    (p : QPainter) (h : emptyAtSomeStage qt q = true) :
    paintDispatch qt build q (some p) = rejectedRun build := by
  unfold emptyAtSomeStage at h
  unfold paintDispatch
  split at h
  · rename_i u hd
    cases hu : u.isValid
    · cases hb : build.assertsEnabled <;> simp [fromUrl, qAssert, rejectedRun, hu, hb]
    · have hs := fromString_of_rejected qt build q _ p (by simpa [hu] using h)
      cases hb : build.assertsEnabled <;> simp_all [fromUrl, qAssert]
  · rename_i s hd
    exact fromString_of_rejected qt build q s p h
  · rename_i i hd
    cases hi : i.isNull
    · have hs := fromPixmap_of_null qt build q _ p (by simpa [hi] using h)
      cases hb : build.assertsEnabled <;> simp_all [fromImage, qAssert]
    · cases hb : build.assertsEnabled <;> simp [fromImage, qAssert, rejectedRun, hi, hb]
  · rename_i pm hd
    exact fromPixmap_of_null qt build q pm p h
  · rename_i i hd
    cases hi : i.isNull
    · have hs := fromPixmap_of_null qt build q _ p (by simpa [hi] using h)
      cases hb : build.assertsEnabled <;> simp_all [fromIcon, qAssert]
    · cases hb : build.assertsEnabled <;> simp [fromIcon, qAssert, rejectedRun, hi, hb]
  · exact absurd h (by simp)

/-- C8, amended: `paint` with an invalid or null stored source makes no
call at all, whatever the painter and the build.  For every valid, non-null
stored source whose value is empty or null at a later stage (an invalid
URL, an empty path, a path whose pixmap is null after loading, a null image,
a null pixmap, a null icon) `paint` issues zero draw calls in every build
and with every painter; it returns normally exactly when `Q_ASSERT` is
compiled out, and then, with a non-null painter, after `save`,
`setRenderHints` and `restore`; when `Q_ASSERT` is active the failed
assertion of the helper stops the program after `save` and
`setRenderHints`. -/
theorem paint_empty_values_draw_nothing (qt : Toolkit) (build : Build) :
    (∀ (q : QuickImageItem) (painter : Option QPainter),
      (q.source.isValid = false ∨ q.source.isNull = true) →
        (paint qt build q painter).calls = []) ∧
    (∀ (q : QuickImageItem) (painter : Option QPainter),
      q.source.isValid = true → q.source.isNull = false →
      emptyAtSomeStage qt q = true →
        (paint qt build q painter).drawCount = 0 ∧
        (paint qt build q painter).aborted = build.assertsEnabled) ∧
    (∀ (q : QuickImageItem) (p : QPainter),
      q.source.isValid = true → q.source.isNull = false →
      emptyAtSomeStage qt q = true →
        (build.assertsEnabled = false → paint qt build q (some p) =
          ⟨[.save, .setRenderHints paintRenderHints, .restore], false⟩) ∧
        (build.assertsEnabled = true → paint qt build q (some p) =
          ⟨[.save, .setRenderHints paintRenderHints], true⟩)) := by
  refine ⟨?_, ?_, ?_⟩
  · intro q painter h
    exact (paint_of_invalid qt build q painter h).1
  · intro q painter hv hn he
    cases painter with
    | none =>
      cases hb : build.assertsEnabled <;>
        simp [paint, qAssert, hb, Run.abort, Run.done, Run.drawCount]
    | some p =>
      rw [paint_of_valid qt build q p hv hn, paintDispatch_of_empty qt build q p he]
      cases hb : build.assertsEnabled <;>
        simp [rejectedRun, hb, Run.andThen, Run.call, Run.abort, Run.done,
          Run.drawCount, Call.isDraw]
  · intro q p hv hn he
    rw [paint_of_valid qt build q p hv hn, paintDispatch_of_empty qt build q p he]
    cases hb : build.assertsEnabled <;>
      simp [rejectedRun, hb, Run.andThen, Run.call, Run.abort, Run.done]

/-- Witness of C8: an empty path string in a release build. -/
theorem paint_empty_values_draw_nothing_witness :
    (paint sampleToolkit releaseBuild ⟨⟨.string [], false⟩, ⟨16, 16⟩⟩ (some ⟨0⟩)).drawCount
      = 0 :=
  ((paint_empty_values_draw_nothing sampleToolkit releaseBuild).2.1
    ⟨⟨.string [], false⟩, ⟨16, 16⟩⟩ (some ⟨0⟩) rfl rfl rfl).1

/-- C8, counterexample: in a build with `Q_ASSERT` active, painting a valid,
non-null variant that holds an empty path string does not return: the
assertion `Q_ASSERT(!value.isEmpty())` of `fromString` fails. -/
theorem paint_empty_string_asserts_in_debug :
    QVariant.isValid ⟨.string [], false⟩ = true ∧
    QVariant.isNull ⟨.string [], false⟩ = false ∧
    emptyAtSomeStage sampleToolkit ⟨⟨.string [], false⟩, ⟨16, 16⟩⟩ = true ∧
    (paint sampleToolkit debugBuild
      ⟨⟨.string [], false⟩, ⟨16, 16⟩⟩ (some ⟨0⟩)).aborted = true := by
  decide

/-! ## The path rewrite of `fromString` -/

/-- A string is at least as long as a pattern it starts with. -/
theorem QString.length_le_of_startsWith (cs : CaseSensitivity) :
    ∀ (pre s : QString), QString.startsWith s pre cs = true → pre.length ≤ s.length
  | [], _, _ => by simp
  | _ :: _, [], h => by simp [QString.startsWith] at h
  | _ :: pre, _ :: s, h => by
    simp only [QString.startsWith, Bool.and_eq_true] at h
    have := QString.length_le_of_startsWith cs pre s h.2
    simp only [List.length_cons]
    omega

/-- A character that matches `:` does not match `/`. -/
theorem QChar.not_slash_of_colon (b : Char)
    (h : QChar.equals .CaseInsensitive b ':' = true) :
    QChar.equals .CaseInsensitive b '/' = false := by
  simp only [QChar.equals, beq_iff_eq] at h
  simp only [QChar.equals, h]
  decide

/-- A string that starts with `:` does not start with `qrc:` in any letter case. -/
theorem QString.not_startsWith_qrc_of_colon (rest : QString) :
    QString.startsWith (':' :: rest) kQrcPrefix .CaseInsensitive = false := by
  have : QChar.equals .CaseInsensitive ':' 'q' = false := by decide
  simp [kQrcPrefix, QString.startsWith, this]

/-- On a string that starts with a non-empty `before`, `replace` puts
`after` in front and scans on behind the match. -/
theorem QString.replace_of_startsWith (before after : QString) (cs : CaseSensitivity)
    (c : Char) (rest : QString) (hb : before ≠ [])
    (h : QString.startsWith (c :: rest) before cs = true) :
    QString.replace (c :: rest) before after cs =
      after ++ QString.replaceScan before after cs (before.length - 1) rest := by
  simp [QString.replace, hb, QString.replaceScan, h]

/-- The scan for `:///` never makes the string longer, and passes over the
characters it still has to skip. -/
theorem QString.replaceScan_url_length (cs : CaseSensitivity) :
    ∀ (s : QString) (k : Nat),
      (QString.replaceScan kUrlPrefix kFilePathPrefix cs k s).length + min k s.length
        ≤ s.length
  | [], k => by simp [QString.replaceScan]
  | _ :: rest, k + 1 => by
    have := QString.replaceScan_url_length cs rest k
    simp only [QString.replaceScan, List.length_cons]
    omega
  | c :: rest, 0 => by
    simp only [QString.replaceScan]
    split
    · rename_i h
      have hl := QString.length_le_of_startsWith cs _ _ h
      have := QString.replaceScan_url_length cs rest (kUrlPrefix.length - 1)
      simp only [kUrlPrefix, kFilePathPrefix, List.length_cons, List.length_nil,
        List.length_append] at *
      omega
    · have := QString.replaceScan_url_length cs rest 0
      simp only [List.length_cons] at *
      omega

/-- Replacing `:///` in a string that starts with it changes the string. -/
theorem QString.replace_url_ne (s : QString)
    (h : QString.startsWith s kUrlPrefix .CaseInsensitive = true) :
    QString.replace s kUrlPrefix kFilePathPrefix .CaseInsensitive ≠ s := by
  cases s with
  | nil => simp [kUrlPrefix, QString.startsWith] at h
  | cons c rest =>
    intro heq
    have hl := QString.length_le_of_startsWith _ _ _ h
    have hs := QString.replaceScan_url_length .CaseInsensitive rest (kUrlPrefix.length - 1)
    rw [QString.replace_of_startsWith _ _ _ _ _ (by simp [kUrlPrefix]) h] at heq
    have hlen := congrArg List.length heq
    simp only [kUrlPrefix, kFilePathPrefix, List.length_cons, List.length_nil,
      List.length_append] at *
    omega

/-- The scan for `:///` keeps a leading `/` and never creates one. -/
theorem QString.replaceScan_url_startsWith_slash (r : QString) :
    QString.startsWith
      (QString.replaceScan kUrlPrefix kFilePathPrefix .CaseInsensitive 0 r) ['/']
      .CaseInsensitive = QString.startsWith r ['/'] .CaseInsensitive := by
  have hc : QChar.equals .CaseInsensitive ':' '/' = false := by decide
  cases r with
  | nil => rfl
  | cons b rest =>
    simp only [QString.replaceScan]
    split
    · rename_i h
      have hb : QChar.equals .CaseInsensitive b ':' = true := by
        simp only [kUrlPrefix, QString.startsWith, Bool.and_eq_true] at h
        exact h.1
      simp [kFilePathPrefix, QString.startsWith, hc, QChar.not_slash_of_colon b hb]
    · simp [QString.startsWith]

/-- The scan for `:///` keeps a leading `//` and never creates one. -/
theorem QString.replaceScan_url_startsWith_two_slashes (r : QString) :
    QString.startsWith
      (QString.replaceScan kUrlPrefix kFilePathPrefix .CaseInsensitive 0 r) ['/', '/']
      .CaseInsensitive = QString.startsWith r ['/', '/'] .CaseInsensitive := by
  have hc : QChar.equals .CaseInsensitive ':' '/' = false := by decide
  cases r with
  | nil => rfl
  | cons b rest =>
    simp only [QString.replaceScan]
    split
    · rename_i h
      have hb : QChar.equals .CaseInsensitive b ':' = true := by
        simp only [kUrlPrefix, QString.startsWith, Bool.and_eq_true] at h
        exact h.1
      simp [kFilePathPrefix, QString.startsWith, hc, QChar.not_slash_of_colon b hb]
    · have := QString.replaceScan_url_startsWith_slash rest
      simp only [QString.startsWith] at this ⊢
      rw [this]

/-- A string that starts with a longer pattern starts with its beginning. -/
theorem QString.startsWith_of_startsWith_append (cs : CaseSensitivity) :
    ∀ (pre more s : QString), QString.startsWith s (pre ++ more) cs = true →
      QString.startsWith s pre cs = true
  | [], _, _, _ => by simp [QString.startsWith]
  | _ :: _, _, [], h => by simp [QString.startsWith] at h
  | a :: pre, more, c :: s, h => by
    simp only [List.cons_append, QString.startsWith, Bool.and_eq_true] at h ⊢
    exact ⟨h.1, QString.startsWith_of_startsWith_append cs pre more s h.2⟩

/-- The lambda of `fromString` is its second `if` applied to the result of
the first. -/
theorem fromStringPath_eq (value : QString) :
    fromStringPath value =
      if (fromStringPathQrc value).startsWith kUrlPrefix .CaseInsensitive then
        (fromStringPathQrc value).replace kUrlPrefix kFilePathPrefix .CaseInsensitive
      else fromStringPathQrc value := rfl

/-- After the `qrc:` replacement the path does not start with `qrc:`. -/
theorem fromStringPathQrc_not_startsWith_qrc (p : QString) :
    QString.startsWith (fromStringPathQrc p) kQrcPrefix .CaseInsensitive = false := by
  unfold fromStringPathQrc
  split
  · rename_i h
    cases p with
    | nil => simp [kQrcPrefix, QString.startsWith] at h
    | cons c rest =>
      rw [QString.replace_of_startsWith _ _ _ _ _ (by simp [kQrcPrefix]) h]
      exact QString.not_startsWith_qrc_of_colon _
  · rename_i h
    simpa using h

/-- The rewritten path does not start with `qrc:`. -/
theorem fromStringPath_not_startsWith_qrc (p : QString) :
    QString.startsWith (fromStringPath p) kQrcPrefix .CaseInsensitive = false := by
  rw [fromStringPath_eq]
  split
  · rename_i h
    cases hq : fromStringPathQrc p with
    | nil => simp [hq, kUrlPrefix, QString.startsWith] at h
    | cons c rest =>
      rw [hq] at h
      rw [QString.replace_of_startsWith _ _ _ _ _ (by simp [kUrlPrefix]) h]
      exact QString.not_startsWith_qrc_of_colon _
  · exact fromStringPathQrc_not_startsWith_qrc p

/-- A path that starts with neither `qrc:` nor `:///` is left as it is. -/
theorem fromStringPath_of_no_scheme (q : QString)
    (h1 : QString.startsWith q kQrcPrefix .CaseInsensitive = false)
    (h2 : QString.startsWith q kUrlPrefix .CaseInsensitive = false) :
    fromStringPath q = q := by
  simp [fromStringPath, h1, h2]

/-- The rewritten path starts with `:///` exactly when the path after the
`qrc:` replacement starts with `:` and five slashes. -/
theorem fromStringPath_startsWith_url (p : QString) :
    QString.startsWith (fromStringPath p) kUrlPrefix .CaseInsensitive =
      QString.startsWith (fromStringPathQrc p) [':', '/', '/', '/', '/', '/']
        .CaseInsensitive := by
  rw [fromStringPath_eq]
  split
  · rename_i h
    match hq : fromStringPathQrc p, h with
    | c0 :: c1 :: c2 :: c3 :: r, h =>
      have h' := h
      simp only [kUrlPrefix, QString.startsWith, Bool.and_eq_true] at h'
      obtain ⟨e0, e1, e2, e3, -⟩ := h'
      rw [QString.replace_of_startsWith _ _ _ _ _ (by simp [kUrlPrefix]) h]
      have hcc : QChar.equals .CaseInsensitive ':' ':' = true := by decide
      have hss : QChar.equals .CaseInsensitive '/' '/' = true := by decide
      have key := QString.replaceScan_url_startsWith_two_slashes r
      simp only [kUrlPrefix, kFilePathPrefix, List.length_cons, List.length_nil,
        QString.replaceScan, List.cons_append, List.nil_append, QString.startsWith,
        e0, e1, e2, e3, hcc, hss, Bool.true_and] at key ⊢
      simpa using key
    | [], h => simp [kUrlPrefix, QString.startsWith] at h
    | [_], h => simp [kUrlPrefix, QString.startsWith] at h
    | [_, _], h => simp [kUrlPrefix, QString.startsWith] at h
    | [_, _, _], h => simp [kUrlPrefix, QString.startsWith] at h
  · rename_i h
    have h0 : QString.startsWith (fromStringPathQrc p) kUrlPrefix .CaseInsensitive
        = false := by simpa using h
    rw [h0]
    cases h5 : QString.startsWith (fromStringPathQrc p) [':', '/', '/', '/', '/', '/']
        .CaseInsensitive with
    | false => rfl
    | true =>
      have := QString.startsWith_of_startsWith_append .CaseInsensitive
        kUrlPrefix ['/', '/'] (fromStringPathQrc p) h5
      rw [h0] at this
      exact absurd this (by simp)

/-- A scan finds nothing to replace in a string that does not contain the
pattern. -/
theorem QString.replaceScan_of_not_contains (before after : QString)
    (cs : CaseSensitivity) :
    ∀ r : QString, QString.contains r before cs = false →
      QString.replaceScan before after cs 0 r = r
  | [], _ => rfl
  | c :: rest, h => by
    simp only [QString.contains, Bool.or_eq_false_iff] at h
    simp [QString.replaceScan, h.1, QString.replaceScan_of_not_contains before after cs rest h.2]

/-- The rewrite of a `qrc:` path as the scheme alone: for `qrc:` in any
letter case followed by a text `r` that contains no further `qrc:` and does
not start with `///`, the rewritten path is `:` followed by `r`. -/
theorem fromStringPath_of_qrc (a b c d : Char) (r : QString)
    (hm : QString.startsWith [a, b, c, d] kQrcPrefix .CaseInsensitive = true)
    (hin : QString.contains r kQrcPrefix .CaseInsensitive = false)
    (hs : QString.startsWith r ['/', '/', '/'] .CaseInsensitive = false) :
    fromStringPath ([a, b, c, d] ++ r) = kFileSystemPrefix ++ r := by
  have hm' := hm
  simp only [kQrcPrefix, QString.startsWith, Bool.and_eq_true] at hm'
  obtain ⟨e0, e1, e2, e3, -⟩ := hm'
  have hp : QString.startsWith (a :: ([b, c, d] ++ r)) kQrcPrefix .CaseInsensitive
      = true := by
    simp [kQrcPrefix, QString.startsWith, e0, e1, e2, e3]
  have h1 : fromStringPathQrc ([a, b, c, d] ++ r) = ':' :: r := by
    have hr := QString.replaceScan_of_not_contains kQrcPrefix kFileSystemPrefix
      .CaseInsensitive r hin
    have := QString.replace_of_startsWith kQrcPrefix kFileSystemPrefix
      .CaseInsensitive a ([b, c, d] ++ r) (by simp [kQrcPrefix]) hp
    simp only [fromStringPathQrc, List.cons_append, List.nil_append] at this ⊢
    rw [if_pos (by simpa using hp), this]
    simp only [kQrcPrefix, kFileSystemPrefix, List.length_cons, List.length_nil,
      QString.replaceScan, List.cons_append, List.nil_append] at hr ⊢
    rw [hr]
  have hcc : QChar.equals .CaseInsensitive ':' ':' = true := by decide
  have h2 : QString.startsWith (':' :: r) kUrlPrefix .CaseInsensitive = false := by
    simpa [kUrlPrefix, QString.startsWith, hcc] using hs
  rw [fromStringPath_eq, h1]
  simp [h2, kFileSystemPrefix]

/-- The rewrite of a `:///` path as the scheme alone: for a text `r` that
contains no further `:///`, the path `:///` followed by `r` is rewritten to
`:/` followed by `r`. -/
theorem fromStringPath_of_url (r : QString)
    (hin : QString.contains r kUrlPrefix .CaseInsensitive = false) :
    fromStringPath (kUrlPrefix ++ r) = kFilePathPrefix ++ r := by
  have hq : QString.startsWith (kUrlPrefix ++ r) kQrcPrefix .CaseInsensitive = false :=
    QString.not_startsWith_qrc_of_colon _
  have hcc : QChar.equals .CaseInsensitive ':' ':' = true := by decide
  have hss : QChar.equals .CaseInsensitive '/' '/' = true := by decide
  have hu : QString.startsWith (':' :: ('/' :: '/' :: '/' :: r)) kUrlPrefix
      .CaseInsensitive = true := by
    simp [kUrlPrefix, QString.startsWith, hcc, hss]
  have hr := QString.replaceScan_of_not_contains kUrlPrefix kFilePathPrefix
    .CaseInsensitive r hin
  have := QString.replace_of_startsWith kUrlPrefix kFilePathPrefix
    .CaseInsensitive ':' ('/' :: '/' :: '/' :: r) (by simp [kUrlPrefix]) hu
  have h1 : fromStringPathQrc (kUrlPrefix ++ r) = kUrlPrefix ++ r := by
    simp [fromStringPathQrc, hq]
  rw [fromStringPath_eq, h1]
  have hu' : QString.startsWith (kUrlPrefix ++ r) kUrlPrefix .CaseInsensitive = true := hu
  rw [if_pos hu']
  show QString.replace (':' :: ('/' :: '/' :: '/' :: r)) kUrlPrefix kFilePathPrefix
    .CaseInsensitive = kFilePathPrefix ++ r
  rw [this]
  simp only [kUrlPrefix, kFilePathPrefix, List.length_cons, List.length_nil,
    QString.replaceScan, List.cons_append, List.nil_append] at hr ⊢
  rw [hr]

/-- A path that starts with `:/` and not with `:///` is passed on unchanged. -/
theorem fromStringPath_of_filePath (r : QString)
    (h : QString.startsWith (kFilePathPrefix ++ r) kUrlPrefix .CaseInsensitive = false) :
    fromStringPath (kFilePathPrefix ++ r) = kFilePathPrefix ++ r :=
  fromStringPath_of_no_scheme _ (QString.not_startsWith_qrc_of_colon _) h

/-- C9, amended: for every path string the rewritten path never starts with
`qrc:` (in any letter case); rewriting the rewritten path gives the same
string exactly when the rewritten path does not start with `:///`; and the
rewritten path starts with `:///` exactly when the path after the `qrc:`
replacement starts with `:` followed by five slashes. -/
theorem fromStringPath_idempotent_iff (p : QString) :
    QString.startsWith (fromStringPath p) kQrcPrefix .CaseInsensitive = false ∧
    (fromStringPath (fromStringPath p) = fromStringPath p ↔
      QString.startsWith (fromStringPath p) kUrlPrefix .CaseInsensitive = false) ∧
    QString.startsWith (fromStringPath p) kUrlPrefix .CaseInsensitive =
      QString.startsWith (fromStringPathQrc p) [':', '/', '/', '/', '/', '/']
        .CaseInsensitive := by
  refine ⟨fromStringPath_not_startsWith_qrc p, ⟨?_, ?_⟩, fromStringPath_startsWith_url p⟩
  · intro hidem
    cases hu : QString.startsWith (fromStringPath p) kUrlPrefix .CaseInsensitive with
    | false => rfl
    | true =>
      have hne := QString.replace_url_ne (fromStringPath p) hu
      have hq := fromStringPath_not_startsWith_qrc p
      have : fromStringPath (fromStringPath p) =
          QString.replace (fromStringPath p) kUrlPrefix kFilePathPrefix
            .CaseInsensitive := by
        rw [fromStringPath_eq (fromStringPath p)]
        simp [fromStringPathQrc, hq, hu]
      rw [this] at hidem
      exact absurd hidem hne
  · intro hu
    exact fromStringPath_of_no_scheme _ (fromStringPath_not_startsWith_qrc p) hu

/-- C9, counterexample: the path `://///x` is rewritten to `:///x`, which
starts with `:///` again and which a second rewrite turns into `:/x`. -/
theorem fromStringPath_not_idempotent :
    fromStringPath (QStringLiteral "://///x") = QStringLiteral ":///x" ∧
    fromStringPath (fromStringPath (QStringLiteral "://///x")) = QStringLiteral ":/x" ∧
    fromStringPath (fromStringPath (QStringLiteral "://///x")) ≠
      fromStringPath (QStringLiteral "://///x") ∧
    QString.startsWith (fromStringPath (QStringLiteral "://///x")) kUrlPrefix
      .CaseInsensitive = true := by
  decide

/-- C4, the code at the failing inputs: `replace` rewrites every occurrence
of the scheme, so `qrc:/a/qrc:b.png` becomes `:/a/:b.png` (not
`:/a/qrc:b.png`) and `:///a:///b.png` becomes `:/a:/b.png` (not
`:/a:///b.png`): the text after the leading scheme is changed. -/
theorem fromStringPath_rewrites_inner_occurrences :
    fromStringPath (QStringLiteral "qrc:/a/qrc:b.png") = QStringLiteral ":/a/:b.png" ∧
    fromStringPath (QStringLiteral "qrc:/a/qrc:b.png") ≠
      kFileSystemPrefix ++ QStringLiteral "/a/qrc:b.png" ∧
    fromStringPath (QStringLiteral ":///a:///b.png") = QStringLiteral ":/a:/b.png" ∧
    fromStringPath (QStringLiteral ":///a:///b.png") ≠
      kFilePathPrefix ++ QStringLiteral "a:///b.png" := by
  decide

end FramelessHelper
